import Mathlib

/-!
Verification of the Ralph Loop Engine (src/ai-agent/src/ralph/) against its
specification.

The development shallowly embeds the Python modules the claims touch:

* `tools.py`    — path resolution (`_resolve_path`), `_tool_read_file`,
  `_tool_write_file`, `_run_shell_command`, `execute_tool`;
* `models.py`   — the task / iteration / tool-call / backpressure data shapes
  and the task transitions (`start`, `complete`, `fail`, `timeout`,
  `add_iteration`);
* `completion.py` — `CompletionDetector` (`_check_completion_promise`,
  `_check_backpressure`, `_check_for_errors`, `_analyze_progress`,
  `check_completion`, `should_stop`);
* `loop_agent.py` — backpressure command detection and execution, the
  per-iteration bookkeeping of `_run_iteration`, and the outer loop of
  `run_task`.

Modelling conventions:
* Python strings are Lean `String`s; all scanning is done on `List Char` so
  everything evaluates in the kernel.  Python `x in y` is `strHas y x`.
* The filesystem is an explicit state (`FSState`): a finite map from resolved
  absolute paths (component lists) to file contents, plus a set of directory
  paths.  Symlinks are not modelled; `Path.resolve` on a symlink-free tree is
  the purely lexical normalisation `normComps`.
* The LLM transport and the context builder are abstracted: a loop scenario is
  a list of `IterData` records giving, per iteration, what the agent turn
  produced (response text, tool calls, file changes, error).  Wall-clock
  fields (timestamps) and the 1-second inter-iteration sleep are not modelled.
* Python float confidence arithmetic uses only the decimal constants 0.15,
  0.10, 0.20, 0.05, capped at 0.7 with threshold 0.5; we compute the score
  exactly in hundredths (`Nat`) and expose `confidence : ℚ` as `score / 100`.
* Subprocess execution is abstracted by a `ShellOutcome` oracle saying whether
  the spawned command finished (with captured output and exit code), timed
  out, or failed to spawn; `runShellCommand` embeds the result-dict logic of
  `_run_shell_command` on top of it.
-/

/-! ## Character / string helpers -/

/-- Is the first list a leading segment of the second?  (`str.startswith`.) -/
def charLead : List Char → List Char → Bool
  | [], _ => true
  | _ :: _, [] => false
  | a :: as, b :: bs => a == b && charLead as bs

/-- Remove a leading segment, if present. -/
def dropLead : List Char → List Char → Option (List Char)
  | [], s => some s
  | _ :: _, [] => none
  | a :: as, b :: bs => if a = b then dropLead as bs else none

/-- Does `n` occur as a contiguous segment of the second list?  (Python `in`.) -/
def hasSubL (n : List Char) : List Char → Bool
  | [] => charLead n []
  | c :: t => charLead n (c :: t) || hasSubL n t

/-- Python `needle in hay` on strings. -/
def strHas (hay needle : String) : Bool := hasSubL needle.toList hay.toList

/-- Python `str.lower()` on a character list. -/
def lowChars (s : List Char) : List Char := s.map Char.toLower

/-- Python `str.lower()`. -/
def strLower (s : String) : String := String.mk (lowChars s.toList)

/-- Case-insensitive containment: `needle in hay.lower()` with `needle` already
lowercase. -/
def strHasCI (hay needle : String) : Bool :=
  hasSubL (lowChars needle.toList) (lowChars hay.toList)

/-- Python slicing `s[:n]` (by characters). -/
def strTake (s : String) (n : Nat) : String := String.mk (s.toList.take n)

/-- Split a character list on a separator character (`str.split(sep)`). -/
def splitCh (sep : Char) : List Char → List (List Char)
  | [] => [[]]
  | c :: t =>
    let r := splitCh sep t
    if c = sep then [] :: r
    else
      match r with
      | h :: rt => (c :: h) :: rt
      | [] => [[c]]

/-- Python `content.split("\n")`. -/
def splitNL (s : String) : List String := (splitCh '\n' s.toList).map String.mk

/-- Number of entries of `content.split("\n")` (the `lines` counters). -/
def countLines (s : String) : Nat := (splitCh '\n' s.toList).length

/-- Python `str.strip()` (whitespace at both ends). -/
def strTrim (s : String) : String :=
  String.mk (((s.toList.dropWhile Char.isWhitespace).reverse.dropWhile
    Char.isWhitespace).reverse)

/-- Python `l[-n:]`. -/
def lastN {α : Type} (n : Nat) (l : List α) : List α := l.drop (l.length - n)

/-! ## Opaque tool-result values (the free-form dicts the tools return) -/

/-- A JSON-like value, the shape of tool arguments and results. -/
inductive RVal where
  | s (v : String)
  | n (v : Int)
  | b (v : Bool)
  | arr (vs : List RVal)
  | dict (kvs : List (String × RVal))

/-- Look a key up in a dict value. -/
def dictGet (r : RVal) (k : String) : Option RVal :=
  match r with
  | .dict kvs => kvs.lookup k
  | _ => none

/-- Look a key up in a keyword-argument list. -/
def argGet (args : List (String × RVal)) (k : String) : Option RVal :=
  args.lookup k

/-! ## Path resolution (`RalphToolkit._resolve_path`)

A resolved absolute path is its list of components (`/a/b` is `["a", "b"]`).
`working_dir = Path(working_directory).resolve()` is assumed given in that
form.  On a symlink-free tree `Path.resolve` is lexical normalisation. -/

/-- Path components of a path string: split on `/`, dropping empty components
and `.`. -/
def splitPath (p : String) : List String :=
  ((splitCh '/' p.toList).map String.mk).filter (fun s => s ≠ "" ∧ s ≠ ".")

/-- Does the path string start with `/`? -/
def isAbsolute (p : String) : Bool :=
  match p.toList with
  | c :: _ => c == '/'
  | [] => false

/-- Lexical normalisation: `..` removes the previous component (`/..` stays at
the root), matching `Path.resolve` without symlinks. -/
def normComps (l : List String) : List String :=
  l.foldl (fun acc s => if s = ".." then acc.dropLast else acc ++ [s]) []

/-- `(self.working_dir / path).resolve()`: absolute inputs replace the base,
relative inputs are joined, then the result is normalised. -/
def resolveJoin (wd : List String) (p : String) : List String :=
  normComps ((if isAbsolute p then [] else wd) ++ splitPath p)

/-- `str()` of a resolved path. -/
def pathStr (comps : List String) : String :=
  "/" ++ String.intercalate "/" comps

/-- Component-wise containment: the resolved path really lies inside the
working directory (this is the property the spec asks for, not the check the
code performs). -/
def compLead : List String → List String → Bool
  | [], _ => true
  | _ :: _, [] => false
  | a :: as, b :: bs => a == b && compLead as bs

/-- Embedding of `_resolve_path`: join, canonicalise, then require
`str(resolved).startswith(str(self.working_dir))`; on violation raise
`ValueError(f"Path {path} is outside working directory")`. -/
def resolvePathChecked (wd : List String) (p : String) :
    Except String (List String) :=
  let resolved := resolveJoin wd p
  if charLead (pathStr wd).toList (pathStr resolved).toList then
    Except.ok resolved
  else
    Except.error ("Path " ++ p ++ " is outside working directory")

/-! ## Filesystem state -/

/-- The filesystem: files (resolved path ↦ text content) and directories. -/
structure FSState where
  files : List (List String × String) := []
  dirs : List (List String) := []

/-- First-match association lookup. -/
def assocGet : List (List String × String) → List String → Option String
  | [], _ => none
  | (q, v) :: rest, p => if q = p then some v else assocGet rest p

/-- Update (or insert) an association. -/
def setAssoc : List (List String × String) → List String → String →
    List (List String × String)
  | [], p, c => [(p, c)]
  | (q, v) :: rest, p, c =>
    if q = p then (p, c) :: rest else (q, v) :: setAssoc rest p c

/-- Content of a file, if present. -/
def fsGet (fs : FSState) (p : List String) : Option String := assocGet fs.files p

/-- Write a file's content. -/
def fsSet (fs : FSState) (p : List String) (c : String) : FSState :=
  { fs with files := setAssoc fs.files p c }

/-- `Path.exists()`. -/
def fsExists (fs : FSState) (p : List String) : Bool :=
  (fsGet fs p).isSome || decide (p ∈ fs.dirs)

/-- `Path.is_file()`. -/
def fsIsFile (fs : FSState) (p : List String) : Bool :=
  (fsGet fs p).isSome && !(decide (p ∈ fs.dirs))

/-- The proper ancestors of a path (targets of `parent.mkdir(parents=True)`). -/
def properAncestors (p : List String) : List (List String) :=
  (List.range p.length).map (fun k => p.take k)

/-- `mkdir(parents=True)` raises when an ancestor exists as a regular file. -/
def ancestorFileConflict (fs : FSState) (p : List String) : Bool :=
  (properAncestors p).any (fun a => (fsGet fs a).isSome)

/-- `full_path.parent.mkdir(parents=True, exist_ok=True)`. -/
def mkdirParents (fs : FSState) (p : List String) : FSState :=
  { fs with
    dirs := fs.dirs ++ (properAncestors p).filter (fun a => a ∉ fs.dirs) }

theorem assocGet_setAssoc (l : List (List String × String)) (p : List String)
    (c : String) : assocGet (setAssoc l p c) p = some c := by
  induction l with
  | nil => simp [setAssoc, assocGet]
  | cons h t ih =>
    obtain ⟨q, v⟩ := h
    by_cases hq : q = p
    · simp [setAssoc, assocGet, hq]
    · simp [setAssoc, assocGet, hq, ih]

theorem fsGet_fsSet (fs : FSState) (p : List String) (c : String) :
    fsGet (fsSet fs p c) p = some c := by
  simpa [fsGet, fsSet] using assocGet_setAssoc fs.files p c

/-! ## Data models (`models.py`) -/

/-- Status of a Ralph task. -/
inductive TaskStatus where
  | pending | running | completed | failed | timeout | cancelled
deriving DecidableEq

/-- Status of a single iteration. -/
inductive IterationStatus where
  | running | completed | failed | needs_review
deriving DecidableEq

/-- Record of a file change made during an iteration. -/
structure FileChange where
  path : String
  action : String
  content_preview : Option String := none
  lines_added : Nat := 0
  lines_removed : Nat := 0
deriving DecidableEq

/-- Record of a tool call made during an iteration.  (The timestamp field is
wall clock and not modelled.) -/
structure ToolCall where
  tool_name : String
  arguments : List (String × RVal) := []
  result : Option RVal := none
  error : Option String := none
  duration_ms : Nat := 0

/-- Result of one backpressure validation. -/
structure BackpressureResult where
  check_type : String
  passed : Bool
  output : String := ""
  errors : List String := []
  warnings : List String := []
  duration_ms : Nat := 0
deriving DecidableEq

/-- Result of completion detection.  `confidence` is ℚ; the Python float
arithmetic only ever produces multiples of 1/100 here. -/
structure CompletionResult where
  is_complete : Bool := false
  reason : String := ""
  confidence : ℚ := 0
  promise_detected : Bool := false
  all_tests_passed : Bool := false
  no_errors : Bool := true

/-- Configuration for a Ralph task (temperature is an opaque float the core
never reads, so it is omitted). -/
structure RalphTaskConfig where
  completion_promise : String := "<promise>COMPLETE</promise>"
  max_iterations : Nat := 50
  iteration_timeout_seconds : Nat := 300
  run_tests : Bool := true
  run_lint : Bool := true
  run_typecheck : Bool := true
  run_build : Bool := false
  test_command : Option String := none
  lint_command : Option String := none
  typecheck_command : Option String := none
  build_command : Option String := none
  include_git_history : Bool := true
  include_file_contents : Bool := true
  max_context_files : Nat := 20
  working_directory : String := "."
  model : String := "claude-sonnet-4-20250514"
  max_tokens : Nat := 16000

/-- A single iteration in the Ralph loop (timestamps not modelled). -/
structure RalphIteration where
  iteration_number : Nat
  status : IterationStatus := .running
  prompt_sent : String := ""
  agent_response : String := ""
  reasoning : String := ""
  tool_calls : List ToolCall := []
  file_changes : List FileChange := []
  git_commits : List String := []
  backpressure_results : List BackpressureResult := []
  completion_promise_found : Bool := false
  completion_message : Option String := none
  error : Option String := none
  duration_ms : Nat := 0

/-- A Ralph task (identity and timestamps not modelled; ownership fields are
opaque to the core). -/
structure RalphTask where
  prompt : String := ""
  description : String := ""
  config : RalphTaskConfig := {}
  status : TaskStatus := .pending
  current_iteration : Nat := 0
  iterations : List RalphIteration := []
  completion_result : Option CompletionResult := none
  final_output : Option String := none
  error : Option String := none
  total_tool_calls : Nat := 0
  total_file_changes : Nat := 0

/-- A fresh task as built by the caller. -/
def initTask (prompt : String) (cfg : RalphTaskConfig) : RalphTask :=
  { prompt := prompt, config := cfg }

/-- `RalphTask.start`. -/
def taskStart (t : RalphTask) : RalphTask := { t with status := .running }

/-- `RalphTask.complete`. -/
def taskComplete (t : RalphTask) (result : CompletionResult)
    (final_output : String) : RalphTask :=
  { t with status := .completed, completion_result := some result,
           final_output := some final_output }

/-- `RalphTask.fail`. -/
def taskFail (t : RalphTask) (e : String) : RalphTask :=
  { t with status := .failed, error := some e }

/-- `RalphTask.timeout`. -/
def taskTimeout (t : RalphTask) : RalphTask :=
  { t with status := .timeout,
           error := some ("Task timed out after " ++
             toString t.current_iteration ++ " iterations") }

/-- `RalphTask.cancel`. -/
def taskCancel (t : RalphTask) : RalphTask := { t with status := .cancelled }

/-- `RalphTask.add_iteration`. -/
def addIteration (t : RalphTask) (it : RalphIteration) : RalphTask :=
  { t with iterations := t.iterations ++ [it],
           current_iteration := t.iterations.length + 1,
           total_tool_calls := t.total_tool_calls + it.tool_calls.length,
           total_file_changes := t.total_file_changes + it.file_changes.length }

@[simp] theorem addIteration_config (t : RalphTask) (it : RalphIteration) :
    (addIteration t it).config = t.config := rfl

/-! ## Toolkit file tools (`tools.py`)

Each `_tool_*` body returns a result dict; a raised exception (here: the
`ValueError` of `_resolve_path`) is the `Except.error` case, which
`execute_tool` catches.  Operating-system error strings that Python would
interpolate into `f"Failed to ...: {e}"` messages are abstracted to fixed
texts. -/

/-- Embedding of `_tool_read_file`. -/
def toolReadFile (wd : List String) (fs : FSState) (path : String)
    (start_line end_line : Option Nat) : Except String RVal :=
  match resolvePathChecked wd path with
  | .error e => .error e
  | .ok rp =>
    if !(fsExists fs rp) then
      .ok (.dict [("error", .s ("File not found: " ++ path))])
    else if !(fsIsFile fs rp) then
      .ok (.dict [("error", .s ("Not a file: " ++ path))])
    else
      let content0 := (fsGet fs rp).getD ""   -- present because `fsIsFile`
      let content :=
        if start_line.isSome || end_line.isSome then
          let ls := splitNL content0
          -- `start = (start_line or 1) - 1` (Python truthiness: 0 → 1)
          let sv := match start_line with
            | some v => if v = 0 then 1 else v
            | none => 1
          let ev := match end_line with
            | some v => if v = 0 then ls.length else v
            | none => ls.length
          String.intercalate "\n" ((ls.drop (sv - 1)).take (ev - (sv - 1)))
        else content0
      .ok (.dict [("path", .s path), ("content", .s content),
                  ("lines", .n (countLines content)),
                  ("size", .n content.length)])

/-- Embedding of `_tool_write_file`.  Returns the result dict, the new
filesystem, and the toolkit's file-change buffer after the call. -/
def toolWriteFile (wd : List String) (fs : FSState) (changes : List FileChange)
    (path content : String) :
    Except String (RVal × FSState × List FileChange) :=
  match resolvePathChecked wd path with
  | .error e => .error e
  | .ok rp =>
    if ancestorFileConflict fs rp then
      .ok (.dict [("error", .s "Failed to write file: parent is a file")],
           fs, changes)
    else
      let fs1 := mkdirParents fs rp
      let existed := fsExists fs1 rp
      let action := if existed then "modify" else "create"
      if decide (rp ∈ fs1.dirs) then
        -- reading or writing a directory raises; caught into an error dict
        .ok (.dict [("error", .s "Failed to write file: is a directory")],
             fs1, changes)
      else
        let old_lines := if existed then countLines ((fsGet fs1 rp).getD "")
                         else 0
        let new_lines := countLines content
        let fc : FileChange :=
          { path := path, action := action,
            content_preview := some (strTake content 200),
            lines_added := if existed then new_lines - old_lines else new_lines,
            lines_removed := if existed then old_lines - new_lines else 0 }
        .ok (.dict [("success", .b true), ("path", .s path),
                    ("action", .s action), ("lines", .n new_lines)],
             fsSet fs1 rp content, changes ++ [fc])

/-! ## Shell execution (`_run_shell_command`, `_tool_run_command`) -/

/-- What the spawned subprocess did: finished within the timeout, exceeded it
(with the output captured so far), or failed to spawn. -/
inductive ShellOutcome where
  | done (stdout stderr : String) (exit_code : Int)
  | timedOut (outSoFar errSoFar : String)
  | spawnFail (msg : String)

/-- The result dict of `_run_shell_command` (absent keys are `none`). -/
structure CmdResult where
  stdout : Option String := none
  stderr : Option String := none
  exit_code : Option Int := none
  success : Option Bool := none
  error : Option String := none
deriving DecidableEq

/-- Embedding of `_run_shell_command`; the second component records whether
`proc.kill()` was invoked.  On timeout the dict carries only the error text
and exit code −1 — `communicate()` raised, so the captured output is lost. -/
def runShellCommand (outcome : ShellOutcome) (timeout : Nat) :
    CmdResult × Bool :=
  match outcome with
  | .done o e c =>
    ({ stdout := some (strTake o 10000), stderr := some (strTake e 5000),
       exit_code := some c, success := some (decide (c = 0)) }, false)
  | .timedOut _ _ =>
    ({ exit_code := some (-1),
       error := some ("Command timed out after " ++ toString timeout ++ "s") },
     true)
  | .spawnFail m =>
    ({ error := some ("Command execution failed: " ++ m) }, false)

/-- The denylisted command fragments of `_tool_run_command`. -/
def dangerousFragments : List String := ["rm -rf /", "mkfs", "> /dev/", "dd if="]

/-- Embedding of `_tool_run_command` (spawns only when allowed and not
denylisted). -/
def toolRunCommand (allow_shell : Bool) (sh : String → ShellOutcome)
    (command : String) (timeout : Nat) : CmdResult × Bool :=
  if !allow_shell then ({ error := some "Shell commands are disabled" }, false)
  else
    let tmo := min timeout 300
    match dangerousFragments.find? (fun d => strHas command d) with
    | some d =>
      ({ error := some ("Dangerous command blocked: " ++ d) }, false)
    | none => runShellCommand (sh command) tmo

/-! ## `execute_tool` (`tools.py` lines 270–296)

`getattr(self, f"_tool_{tool_name}", None)` is modelled by an environment
mapping tool names to their bound methods; a method either returns a result
dict (`Except.ok`) or raises (`Except.error`), and the wrapper catches every
exception.  `duration_ms` is the measured elapsed time, passed in here. -/

/-- Embedding of `RalphToolkit.execute_tool`. -/
def executeTool (env : String → Option (List (String × RVal) → Except String RVal))
    (tool_name : String) (arguments : List (String × RVal))
    (elapsed_ms : Nat) : ToolCall :=
  let base : ToolCall := { tool_name := tool_name, arguments := arguments }
  let tc :=
    match env tool_name with
    | none => { base with error := some ("Unknown tool: " ++ tool_name) }
    | some method =>
      match method arguments with
      | Except.ok r => { base with result := some r }
      | Except.error e => { base with error := some e }
  { tc with duration_ms := elapsed_ms }

/-- The bound `_tool_read_file` as a keyword-argument method (a call with a
missing `path` raises `TypeError`; the message is abstracted). -/
def readFileMethod (wd : List String) (fs : FSState)
    (args : List (String × RVal)) : Except String RVal :=
  match argGet args "path" with
  | some (RVal.s p) => toolReadFile wd fs p none none
  | _ => Except.error "missing required argument: path"

/-! ## Completion detection (`completion.py`) -/

/-- Python `\s` inside the alternate patterns (ASCII part). -/
def sepChar (c : Char) : Bool :=
  c = '_' || c = ' ' || c = '\t' || c = '\n' || c = '\r' ||
  c = '\x0b' || c = '\x0c'

/-- Match `W1[_\s]?W2` at the head of `s` (both words already lowercase). -/
def twoWordAt (w1 w2 s : List Char) : Bool :=
  match dropLead w1 s with
  | none => false
  | some r =>
    charLead w2 r ||
    (match r with
     | c :: r2 => sepChar c && charLead w2 r2
     | [] => false)

/-- Search `W1[_\s]?W2` anywhere in `s`. -/
def twoWordFind (w1 w2 : List Char) : List Char → Bool
  | [] => twoWordAt w1 w2 []
  | c :: t => twoWordAt w1 w2 (c :: t) || twoWordFind w1 w2 t

/-- Do any of the `completion_patterns` regexes match the response
(case-insensitively)?  The patterns are the literal
`<promise>COMPLETE</promise>`, `TASK[_\s]?COMPLETE`, `LOOP[_\s]?COMPLETE`,
`DONE[_\s]?COMPLETE`, `[COMPLETE]` and `[DONE]`. -/
def altPatternFound (response : String) : Bool :=
  let r := lowChars response.toList
  hasSubL "<promise>complete</promise>".toList r ||
  twoWordFind "task".toList "complete".toList r ||
  twoWordFind "loop".toList "complete".toList r ||
  twoWordFind "done".toList "complete".toList r ||
  hasSubL "[complete]".toList r ||
  hasSubL "[done]".toList r

/-- The `found` component of `_check_completion_promise(response,
custom_promise)` on a detector whose own promise is `selfP`.  `custom` is
checked first, under Python truthiness (an empty string is falsy). -/
def promiseFound (selfP : String) (custom : Option String)
    (response : String) : Bool :=
  (match custom with
   | some c => c ≠ "" && strHas response c
   | none => false) ||
  strHas response selfP || altPatternFound response

/-- Length of a `W1[_\s]?W2` match starting at the head of `s`, if any
(the two alternatives are mutually exclusive because no word starts with a
separator character). -/
def twoWordLenAt (w1 w2 : List Char) (s : List Char) : Option Nat :=
  match dropLead w1 s with
  | none => none
  | some r =>
    if charLead w2 r then some (w1.length + w2.length)
    else
      match r with
      | c :: r2 =>
        if sepChar c && charLead w2 r2 then
          some (w1.length + 1 + w2.length)
        else none
      | [] => none

/-- Length of a literal match at the head of `s`, if any. -/
def litAt (w : List Char) (s : List Char) : Option Nat :=
  if charLead w s then some w.length else none

/-- Leftmost match of a head-matcher: position and length (`re.search`). -/
def searchFrom (atLen : List Char → Option Nat) (i : Nat) :
    List Char → Option (Nat × Nat)
  | [] => (atLen []).map (fun l => (i, l))
  | c :: t =>
    match atLen (c :: t) with
    | some l => some (i, l)
    | none => searchFrom atLen (i + 1) t

/-- The alternate patterns, in source order, as head-matchers over the
lowercased response. -/
def completionPatternList : List (List Char → Option Nat) :=
  [litAt "<promise>complete</promise>".toList,
   twoWordLenAt "task".toList "complete".toList,
   twoWordLenAt "loop".toList "complete".toList,
   twoWordLenAt "done".toList "complete".toList,
   litAt "[complete]".toList,
   litAt "[done]".toList]

/-- `match.group()` of the first alternate pattern that matches: the matched
span of the original (not lowercased) response. -/
def altMatchText (response : String) : Option String :=
  let orig := response.toList
  let low := lowChars orig
  completionPatternList.foldl
    (fun acc pat =>
      match acc with
      | some r => some r
      | none =>
        (searchFrom pat 0 low).map
          (fun il => String.mk ((orig.drop il.1).take il.2)))
    none

/-- The `match` component of `_check_completion_promise` (only consulted when
`promiseFound` is true, hence the `""` default). -/
def promiseMatchText (selfP : String) (custom : Option String)
    (response : String) : String :=
  match custom with
  | some c =>
    if c ≠ "" && strHas response c then c
    else if strHas response selfP then selfP
    else (altMatchText response).getD ""
  | none =>
    if strHas response selfP then selfP
    else (altMatchText response).getD ""

/-- The summary `_check_backpressure` computes. -/
structure BpCheck where
  all_passed : Bool
  no_errors : Bool

/-- Embedding of `_check_backpressure` (the per-check `details` map is built
but never read by `check_completion`, so it is not modelled). -/
def bpCheck (results : List BackpressureResult) : BpCheck :=
  if results = [] then { all_passed := true, no_errors := true }
  else
    { all_passed := results.all (fun r => r.passed),
      no_errors := results.all (fun r => r.errors.length = 0) }

/-- Python truthiness of an optional string (`if iteration.error:`). -/
def optStrTruthy (o : Option String) : Bool :=
  match o with
  | some s => s ≠ ""
  | none => false

/-- The `has_critical_error` component of `_check_for_errors`: set only by a
non-empty iteration error or a tool-call error.  (The regex scan of the
response populates `errors_found`, which `check_completion` never reads.) -/
def hasCriticalError (it : RalphIteration) : Bool :=
  optStrTruthy it.error || it.tool_calls.any (fun tc => optStrTruthy tc.error)

/-- The completion phrases of `_analyze_progress` (+0.15 each). -/
def completionPhrases : List String :=
  ["task is complete", "completed successfully", "all done",
   "finished implementing", "implementation complete",
   "changes have been made", "everything is working", "tests pass",
   "all tests pass"]

/-- The verification phrases (+0.10 each). -/
def verificationPhrases : List String :=
  ["please review", "ready for review", "let me know if", "should i",
   "would you like"]

/-- The no-change phrases (+0.20 each). -/
def noChangePhrases : List String :=
  ["no changes needed", "no further changes", "nothing left to do",
   "all requirements met"]

/-- What `_analyze_progress` reports (score in hundredths; the `indicators`
list is informational only and not modelled). -/
structure ProgressCheck where
  appears_complete : Bool
  confidence100 : Nat

/-- Embedding of `_analyze_progress`.  The response is lowercased once; each
phrase list contributes its weight per phrase found; read-only tool calls add
0.10; strictly fewer file changes than the previous iteration add 0.05; the
total is capped at 0.7; `appears_complete` additionally requires a falsy
iteration error and all backpressure checks passed. -/
def analyzeProgress (task : RalphTask) (it : RalphIteration) : ProgressCheck :=
  let resp := lowChars it.agent_response.toList
  let c1 := (completionPhrases.filter
    (fun p => hasSubL p.toList resp)).length * 15
  let c2 := (verificationPhrases.filter
    (fun p => hasSubL p.toList resp)).length * 10
  let c3 := (noChangePhrases.filter
    (fun p => hasSubL p.toList resp)).length * 20
  let c4 := if !it.tool_calls.isEmpty &&
      it.tool_calls.all (fun tc =>
        strHas (strLower tc.tool_name) "read" ||
        strHas (strLower tc.tool_name) "get") then 10 else 0
  let c5 :=
    match (task.iterations.reverse.drop 1).head? with
    | some prev =>
      if it.file_changes.length < prev.file_changes.length then 5 else 0
    | none => 0
  let score := min (c1 + c2 + c3 + c4 + c5) 70
  { appears_complete :=
      decide (50 ≤ score) && !(optStrTruthy it.error) &&
      it.backpressure_results.all (fun bp => bp.passed),
    confidence100 := score }

/-- Embedding of `CompletionDetector.check_completion`.  `selfP` is the
promise the detector was constructed with (`run_task` constructs it from
`task.config.completion_promise`). -/
def checkCompletion (selfP : String) (task : RalphTask)
    (it : RalphIteration) : CompletionResult :=
  if promiseFound selfP (some task.config.completion_promise)
      it.agent_response then
    { is_complete := true,
      reason := "Completion promise detected: " ++
        promiseMatchText selfP (some task.config.completion_promise)
          it.agent_response,
      confidence := 1,
      promise_detected := true,
      all_tests_passed := false,
      no_errors := true }
  else
    let bp := bpCheck it.backpressure_results
    let no_errors := bp.no_errors && !(hasCriticalError it)
    let prog := analyzeProgress task it
    if bp.all_passed && no_errors && prog.appears_complete then
      { is_complete := true,
        reason := "All tests passed, no errors, task appears complete",
        confidence := (prog.confidence100 : ℚ) / 100,
        promise_detected := false,
        all_tests_passed := bp.all_passed,
        no_errors := no_errors }
    else if !no_errors then
      { is_complete := false,
        reason := "Errors detected in iteration",
        confidence := 0,
        promise_detected := false,
        all_tests_passed := bp.all_passed,
        no_errors := no_errors }
    else
      { is_complete := false,
        reason := "Task still in progress",
        confidence := (prog.confidence100 : ℚ) / 100,
        promise_detected := false,
        all_tests_passed := bp.all_passed,
        no_errors := no_errors }

/-- Stop condition 3 of `should_stop`: at least five iterations and at least
four of the last five carry a non-`None` error. -/
def tooManyErrors (t : RalphTask) : Bool :=
  decide (5 ≤ t.iterations.length) &&
  decide (4 ≤ ((lastN 5 t.iterations).filter
    (fun i => i.error.isSome)).length)

/-- Stop condition 4 of `should_stop`: at least three iterations and the last
three response prefixes (first 500 characters) are identical. -/
def lastThreeSame (t : RalphTask) : Bool :=
  decide (3 ≤ t.iterations.length) &&
  (match (lastN 3 t.iterations).map
      (fun i => strTake i.agent_response 500) with
   | [a, b, c] => a == b && b == c
   | _ => false)

/-- Embedding of `CompletionDetector.should_stop`. -/
def shouldStop (t : RalphTask) (cres : CompletionResult) : Bool × String :=
  if cres.is_complete then (true, cres.reason)
  else if t.config.max_iterations ≤ t.current_iteration then
    (true, "Max iterations (" ++ toString t.config.max_iterations ++
      ") reached")
  else if tooManyErrors t then (true, "Too many consecutive errors")
  else if lastThreeSame t then
    (true, "Agent appears stuck (identical responses)")
  else (false, "")

/-! ## Loop agent (`loop_agent.py`) -/

/-- Which signature files exist in the working directory (what the
`_detect_*_command` helpers stat). -/
structure DirSig where
  pytest_ini : Bool := false
  pyproject_toml : Bool := false
  setup_py : Bool := false
  package_json : Bool := false
  go_mod : Bool := false
  cargo_toml : Bool := false
  flake8 : Bool := false
  tsconfig_json : Bool := false

/-- Embedding of `_detect_test_command`. -/
def detectTestCommand (s : DirSig) : Option String :=
  if s.pytest_ini || s.pyproject_toml then some "pytest -v"
  else if s.setup_py then some "python -m pytest"
  else if s.package_json then some "npm test"
  else if s.go_mod then some "go test ./..."
  else if s.cargo_toml then some "cargo test"
  else none

/-- Embedding of `_detect_lint_command`. -/
def detectLintCommand (s : DirSig) : Option String :=
  if s.pyproject_toml || s.flake8 then some "ruff check . || flake8 ."
  else if s.package_json then some "npm run lint 2>/dev/null || eslint ."
  else if s.go_mod then some "golangci-lint run 2>/dev/null || go vet ./..."
  else none

/-- Embedding of `_detect_typecheck_command`. -/
def detectTypecheckCommand (s : DirSig) : Option String :=
  if s.pyproject_toml then some "mypy . 2>/dev/null || true"
  else if s.tsconfig_json then some "tsc --noEmit"
  else none

/-- Embedding of `_detect_build_command`. -/
def detectBuildCommand (s : DirSig) : Option String :=
  if s.package_json then some "npm run build"
  else if s.go_mod then some "go build ./..."
  else if s.cargo_toml then some "cargo build"
  else none

/-- `task.config.x_command or self._detect_x_command(...)` (Python `or`:
an empty override is falsy). -/
def resolveCmd (override : Option String) (detected : Option String) :
    Option String :=
  match override with
  | some c => if c ≠ "" then some c else detected
  | none => detected

/-- Outcome oracle for shell commands: what the subprocess for a given
command line does. -/
def ShellFn : Type := String → ShellOutcome

/-- The error-line patterns of `_extract_errors`.  The source stores regex
texts but matches them with substring containment (`pattern in line`, and
case-insensitively when the pattern is longer than three characters), so the
embedding does exactly that. -/
def errorPatternTexts : List String :=
  ["error[:\\s]", "Error[:\\s]", "ERROR[:\\s]", "failed", "FAILED", "✗", "✖"]

/-- Does a line match any error pattern, the way the source checks it? -/
def errLineMatch (line : String) : Bool :=
  errorPatternTexts.any (fun p =>
    strHas line p || (decide (3 < p.length) && strHasCI line p))

/-- Embedding of `_extract_errors`: matching lines, stripped and truncated to
200 characters, de-duplicated, at most 20. -/
def extractErrors (output : String) : List String :=
  (splitNL output).foldl
    (fun acc line =>
      if 20 ≤ acc.length then acc
      else if errLineMatch line then
        let e := strTake (strTrim line) 200
        if e ≠ "" && !(decide (e ∈ acc)) then acc ++ [e] else acc
      else acc)
    []

/-- Embedding of `_extract_warnings`: lines containing "warning" or "warn"
(case-insensitively), stripped and truncated, de-duplicated, at most 10. -/
def extractWarnings (output : String) : List String :=
  (splitNL output).foldl
    (fun acc line =>
      if 10 ≤ acc.length then acc
      else if strHasCI line "warning" || strHasCI line "warn" then
        let w := strTake (strTrim line) 200
        if w ≠ "" && !(decide (w ∈ acc)) then acc ++ [w] else acc
      else acc)
    []

/-- Embedding of `_run_check`: run the command through the toolkit shell with
a 120-second timeout and package the result (elapsed time abstracted to 0). -/
def runCheck (sh : ShellFn) (check_type command : String) :
    BackpressureResult :=
  let res := (runShellCommand (sh command) 120).1
  let passed := res.success.getD false || decide (res.exit_code.getD 1 = 0)
  let output := res.stdout.getD "" ++ res.stderr.getD ""
  { check_type := check_type,
    passed := passed,
    output := strTake output 5000,
    errors := extractErrors output,
    warnings := extractWarnings output,
    duration_ms := 0 }

/-- Embedding of `_run_backpressure`: for each enabled check, resolve the
command (override or detection) and run it; checks without a command are
skipped.  Order: test, lint, typecheck, build. -/
def runBackpressure (cfg : RalphTaskConfig) (sig : DirSig) (sh : ShellFn) :
    List BackpressureResult :=
  ((if cfg.run_tests then
      (resolveCmd cfg.test_command (detectTestCommand sig)).map
        (runCheck sh "test")
    else none) ::
   (if cfg.run_lint then
      (resolveCmd cfg.lint_command (detectLintCommand sig)).map
        (runCheck sh "lint")
    else none) ::
   (if cfg.run_typecheck then
      (resolveCmd cfg.typecheck_command (detectTypecheckCommand sig)).map
        (runCheck sh "typecheck")
    else none) ::
   (if cfg.run_build then
      (resolveCmd cfg.build_command (detectBuildCommand sig)).map
        (runCheck sh "build")
    else none) :: []).reduceOption

/-- The guard in `_run_iteration` (line 222) deciding whether
`_run_backpressure` is invoked at all.  Note that it does not test
`run_build`. -/
def bpGate (cfg : RalphTaskConfig) : Bool :=
  cfg.run_tests || cfg.run_lint || cfg.run_typecheck

/-- What one agent turn produced, abstracting the LLM transport and the
context builder: the aggregated response text, the tool calls executed, the
file changes drained from the toolkit, and an iteration-level error if the
turn raised. -/
structure IterData where
  agent_response : String := ""
  tool_calls : List ToolCall := []
  file_changes : List FileChange := []
  error : Option String := none

/-- Embedding of `_run_iteration`: number the iteration, attach the turn's
data, set the completion-promise flag (the detector's own promise equals the
configured one, as built in `run_task`), and run the gated backpressure
checks.  An iteration whose turn raised records the error, is marked failed,
and carries no backpressure results. -/
def runIterationModel (sig : DirSig) (sh : ShellFn) (task : RalphTask)
    (d : IterData) : RalphIteration :=
  let found := promiseFound task.config.completion_promise
    (some task.config.completion_promise) d.agent_response
  { iteration_number := task.current_iteration + 1,
    status := if d.error.isSome then .failed else .completed,
    agent_response := d.agent_response,
    tool_calls := d.tool_calls,
    file_changes := d.file_changes,
    completion_promise_found := found,
    completion_message :=
      if found then
        some (promiseMatchText task.config.completion_promise
          (some task.config.completion_promise) d.agent_response)
      else none,
    backpressure_results :=
      if d.error.isSome then []
      else if bpGate task.config then runBackpressure task.config sig sh
      else [],
    error := d.error }

/-- One `_run_iteration` followed by `add_iteration`, as the loop performs
them (`loop_agent.py` lines 109–116 and 180–182). -/
def addScripted (sig : DirSig) (sh : ShellFn) (t : RalphTask)
    (d : IterData) : RalphTask :=
  addIteration t (runIterationModel sig sh t d)

/-- The stop handling at the bottom of the `run_task` loop (lines 130–142):
if `should_stop`, transition to `completed` (when the detector declared
completion) or `failed` (with the stop reason) and return the final task;
otherwise continue. -/
def stepStop (t1 : RalphTask) (cres : CompletionResult)
    (final_out : String) : Option RalphTask :=
  if (shouldStop t1 cres).1 then
    some (if cres.is_complete then taskComplete t1 cres final_out
          else taskFail t1 (shouldStop t1 cres).2)
  else none

/-- Embedding of the `run_task` main loop on a scenario script (cancellation
is not requested in any modelled scenario).  Entering the loop with the
iteration budget exhausted marks the task `timeout`; otherwise the next
iteration runs, is appended, and the completion detector decides whether to
stop.  An exhausted script leaves the task as is (the real loop would call
the LLM again). -/
def runTask (sig : DirSig) (sh : ShellFn) : RalphTask → List IterData →
    RalphTask
  | t, [] => t
  | t, d :: rest =>
    if t.config.max_iterations ≤ t.current_iteration then taskTimeout t
    else
      let it := runIterationModel sig sh t d
      let t1 := addIteration t it
      let cres := checkCompletion t.config.completion_promise t1 it
      match stepStop t1 cres it.agent_response with
      | some t2 => t2
      | none => runTask sig sh t1 rest

/-! ## Scenario fixtures -/

/-- A working directory with no signature files (no command auto-detects). -/
def sig0 : DirSig := {}

/-- A shell oracle for scenarios that never reach the shell. -/
def sh0 : ShellFn := fun _ => ShellOutcome.done "" "" 0

/-- A shell oracle whose commands all succeed printing `ok`. -/
def shOk : ShellFn := fun _ => ShellOutcome.done "ok" "" 0

/-! ## C1 — path confinement -/

/-- Filesystem for the C1 scenario: working directory `/app/work`; a secret
file lives in the sibling directory `/app/work2`, whose path string extends
the working directory's string. -/
def fsC1 : FSState :=
  { files := [(["app", "work2", "secret"], "swordfish")],
    dirs := [[], ["app"], ["app", "work"], ["app", "work2"]] }

/-- C1: the claim that a path canonicalizing outside `working_directory`
always makes the tool fail with no filesystem access is violated.  The input
`../work2/secret` canonicalizes to `/app/work2/secret`, which lies outside
the working directory `/app/work` (component-wise), yet `_resolve_path`'s
`str(resolved).startswith(str(working_dir))` check accepts it because
"/app/work2/secret" starts with the string "/app/work"; `read_file` then
reads the out-of-sandbox file and returns its content with no error. -/
theorem c1_prefix_escape :
    resolvePathChecked ["app", "work"] "../work2/secret" =
      Except.ok ["app", "work2", "secret"] ∧
    compLead ["app", "work"] ["app", "work2", "secret"] = false ∧
    toolReadFile ["app", "work"] fsC1 "../work2/secret" none none =
      Except.ok (RVal.dict
        [("path", RVal.s "../work2/secret"),
         ("content", RVal.s "swordfish"),
         ("lines", RVal.n 1), ("size", RVal.n 9)]) :=
  ⟨rfl, rfl, rfl⟩

/-! ## C2 — max-iterations exhaustion -/

/-- A task allowed a single iteration, with every backpressure check off. -/
def cfgC2 : RalphTaskConfig :=
  { max_iterations := 1, run_tests := false, run_lint := false,
    run_typecheck := false }

/-- The task after one non-completing iteration under `cfgC2`. -/
def taskC2 : RalphTask :=
  runTask sig0 sh0 (taskStart (initTask "demo task" cfgC2))
    [{ agent_response := "working on it" }]

/-- C2: the claim that a single non-completing iteration under
`max_iterations = 1` yields status `timeout` with an error mentioning a
timeout is violated.  `should_stop` trips its max-iterations branch first and
`run_task` then calls `task.fail(...)`, so the final status is `failed` with
error "Max iterations (1) reached" — the `task.timeout()` transition at the
top of the loop is unreachable once an iteration has run. -/
theorem c2_max_iterations_marks_failed :
    taskC2.current_iteration = 1 ∧
    taskC2.status = TaskStatus.failed ∧
    taskC2.status ≠ TaskStatus.timeout ∧
    taskC2.error = some "Max iterations (1) reached" ∧
    strHas "Max iterations (1) reached" "timeout" = false ∧
    strHas "Max iterations (1) reached" "timed out" = false :=
  ⟨rfl, rfl, by decide, rfl, rfl, rfl⟩

/-! ## C4 — backpressure gating -/

/-- Only the build check enabled. -/
def cfgC4 : RalphTaskConfig :=
  { run_tests := false, run_lint := false, run_typecheck := false,
    run_build := true }

/-- A Node working directory (`package.json` present), so a build command
auto-detects. -/
def sigC4 : DirSig := { package_json := true }

/-- C4: the claim that every enabled check with a resolvable command runs is
violated for `run_build`.  With only `run_build` enabled the guard in
`_run_iteration` (which tests `run_tests or run_lint or run_typecheck` only)
is false, so `_run_backpressure` is never called and the iteration carries no
backpressure results — even though the build command resolves and
`_run_backpressure`, had it run, would have produced a build result. -/
theorem c4_build_gate_omitted :
    bpGate cfgC4 = false ∧
    (runIterationModel sigC4 shOk (taskStart (initTask "build demo" cfgC4))
      { agent_response := "building" }).backpressure_results = [] ∧
    resolveCmd cfgC4.build_command (detectBuildCommand sigC4) =
      some "npm run build" ∧
    runBackpressure cfgC4 sigC4 shOk =
      [{ check_type := "build", passed := true, output := "ok",
         errors := [], warnings := [], duration_ms := 0 }] :=
  ⟨rfl, rfl, rfl, by decide⟩

/-! ## C5 — subprocess timeout -/

/-- C5 (amended): when the subprocess exceeds its timeout the child is killed
and the result dict carries exit code −1 and an error text only; the output
captured before the kill is not part of the result (`communicate()` raised,
so the locals were never bound). -/
theorem c5_timeout_result (outSoFar errSoFar : String) (tmo : Nat) :
    runShellCommand (ShellOutcome.timedOut outSoFar errSoFar) tmo =
      ({ exit_code := some (-1),
         error := some ("Command timed out after " ++ toString tmo ++ "s") },
       true) :=
  rfl

/-- C5 witness: the amended statement at a concrete timed-out command. -/
theorem c5_timeout_result_witness :
    runShellCommand (ShellOutcome.timedOut "partial output" "") 60 =
      ({ exit_code := some (-1),
         error := some ("Command timed out after " ++ toString 60 ++ "s") },
       true) :=
  c5_timeout_result "partial output" "" 60

/-- C5 counterexample: the claim as stated says the timed-out result carries
the partial stdout; in fact the result's `stdout` key is absent. -/
theorem c5_no_partial_stdout :
    (runShellCommand (ShellOutcome.timedOut "partial output" "") 60).1.stdout
      = none ∧
    (runShellCommand (ShellOutcome.timedOut "partial output" "") 60).1.stdout
      ≠ some "partial output" ∧
    (runShellCommand (ShellOutcome.timedOut "partial output" "") 60).1.exit_code
      = some (-1) ∧
    (runShellCommand (ShellOutcome.timedOut "partial output" "") 60).1.error
      = some "Command timed out after 60s" ∧
    (runShellCommand (ShellOutcome.timedOut "partial output" "") 60).2 = true :=
  ⟨rfl, by decide, rfl, rfl, rfl⟩

/-! ## C7 — `execute_tool` error discipline -/

/-- C7 (amended): `execute_tool` never propagates an exception: for every
method table, tool name, argument list and elapsed time it returns a
`ToolCall` with `duration_ms` populated; exactly one of `error` / `result` is
set; an unknown tool name produces the "Unknown tool: ..." error; a raised
exception becomes the `error` string with no result.  (A tool that fails
internally without raising instead returns a result dict carrying an
`"error"` key — see the counterexample.) -/
theorem c7_wrapper_discipline
    (env : String → Option (List (String × RVal) → Except String RVal))
    (name : String) (args : List (String × RVal)) (elapsed : Nat) :
    (executeTool env name args elapsed).duration_ms = elapsed ∧
    ((executeTool env name args elapsed).error.isSome ||
      (executeTool env name args elapsed).result.isSome) = true ∧
    (env name = none →
      (executeTool env name args elapsed).error =
        some ("Unknown tool: " ++ name) ∧
      (executeTool env name args elapsed).result = none) ∧
    (∀ (m : List (String × RVal) → Except String RVal) (e : String),
      env name = some m → m args = Except.error e →
      (executeTool env name args elapsed).error = some e ∧
      (executeTool env name args elapsed).result = none) ∧
    ((executeTool env name args elapsed).error.isSome = true →
      (executeTool env name args elapsed).result = none) ∧
    ((executeTool env name args elapsed).result.isSome = true →
      (executeTool env name args elapsed).error = none) := by
  rcases henv : env name with _ | m
  · simp [executeTool, henv]
  · rcases hm : m args with e | r
    · have he : executeTool env name args elapsed =
          { tool_name := name, arguments := args, error := some e,
            duration_ms := elapsed } := by
        simp [executeTool, henv, hm]
      refine ⟨by rw [he], by rw [he]; rfl, ?_, ?_, ?_, ?_⟩
      · intro hc
        exact Option.noConfusion hc
      · rintro m1 e1 hme harg
        obtain rfl : m = m1 := by injection hme
        rw [hm] at harg
        obtain rfl : e = e1 := by injection harg
        exact ⟨by rw [he], by rw [he]⟩
      · intro _
        rw [he]
      · intro hres
        rw [he] at hres
        simp at hres
    · have he : executeTool env name args elapsed =
          { tool_name := name, arguments := args, result := some r,
            duration_ms := elapsed } := by
        simp [executeTool, henv, hm]
      refine ⟨by rw [he], by rw [he]; rfl, ?_, ?_, ?_, ?_⟩
      · intro hc
        exact Option.noConfusion hc
      · rintro m1 e1 hme harg
        obtain rfl : m = m1 := by injection hme
        rw [hm] at harg
        exact Except.noConfusion harg
      · intro herr
        rw [he] at herr
        simp at herr
      · intro _
        rw [he]

/-- Working directory for the C7 counterexample. -/
def wdC7 : List String := ["w"]

/-- An empty working directory. -/
def fsC7 : FSState := { files := [], dirs := [[], ["w"]] }

/-- Method table exposing the modelled `read_file` (the other catalog entries
are irrelevant to this call). -/
def envC7 : String → Option (List (String × RVal) → Except String RVal) :=
  fun n => if n = "read_file" then some (readFileMethod wdC7 fsC7) else none

/-- C7 counterexample: a failing tool call does not always carry the error
string "instead of a result".  Reading a missing file is a failure, yet the
returned `ToolCall` has `error = None` and a result dict containing the error
text — only raised exceptions and unknown names populate `ToolCall.error`. -/
theorem c7_dict_error_not_on_toolcall :
    (executeTool envC7 "read_file" [("path", RVal.s "missing.txt")] 5).error
      = none ∧
    (executeTool envC7 "read_file" [("path", RVal.s "missing.txt")] 5).result
      = some (RVal.dict [("error", RVal.s "File not found: missing.txt")]) ∧
    (executeTool envC7 "read_file" [("path", RVal.s "missing.txt")] 5).duration_ms
      = 5 :=
  ⟨rfl, rfl, rfl⟩

/-- C7 witness: the amended statement applied at a concrete unknown tool and
at a concrete raising call — `read_file` on the absolute path `/etc/passwd`
raises the `ValueError` of `_resolve_path`, which the wrapper records as the
`ToolCall`'s error string with no result. -/
theorem c7_wrapper_discipline_witness :
    (executeTool envC7 "zap" [] 3).error = some ("Unknown tool: " ++ "zap") ∧
    (executeTool envC7 "zap" [] 3).result = none ∧
    (executeTool envC7 "zap" [] 3).duration_ms = 3 ∧
    (executeTool envC7 "read_file" [("path", RVal.s "/etc/passwd")] 4).error =
      some "Path /etc/passwd is outside working directory" ∧
    (executeTool envC7 "read_file" [("path", RVal.s "/etc/passwd")] 4).result =
      none := by
  have h1 := c7_wrapper_discipline envC7 "zap" [] 3
  have h2 := c7_wrapper_discipline envC7 "read_file"
    [("path", RVal.s "/etc/passwd")] 4
  have hu := h1.2.2.1 rfl
  have hex := h2.2.2.2.1 (readFileMethod wdC7 fsC7)
    "Path /etc/passwd is outside working directory" rfl rfl
  exact ⟨hu.1, hu.2, h1.1, hex.1, hex.2⟩

/-! ## C3 — a found completion promise terminates the iteration -/

@[simp] theorem runIterationModel_agent_response (sig : DirSig) (sh : ShellFn)
    (t : RalphTask) (d : IterData) :
    (runIterationModel sig sh t d).agent_response = d.agent_response := rfl

theorem runIterationModel_promise_found (sig : DirSig) (sh : ShellFn)
    (t : RalphTask) (d : IterData) :
    (runIterationModel sig sh t d).completion_promise_found =
      promiseFound t.config.completion_promise
        (some t.config.completion_promise) d.agent_response := rfl

/-- C3: whenever the iteration's `completion_promise_found` flag is true, the
loop stops on that very iteration: `check_completion` re-runs the same
promise check on the same response, returns `is_complete = true` with
confidence 1.0, and `run_task` transitions the task to `completed`, storing
that completion result. -/
theorem c3_promise_completes (sig : DirSig) (sh : ShellFn) (t : RalphTask)
    (d : IterData) (rest : List IterData)
    (hmax : t.current_iteration < t.config.max_iterations)
    (hp : (runIterationModel sig sh t d).completion_promise_found = true) :
    (runTask sig sh t (d :: rest)).status = TaskStatus.completed ∧
    (runTask sig sh t (d :: rest)).completion_result =
      some (checkCompletion t.config.completion_promise
        (addIteration t (runIterationModel sig sh t d))
        (runIterationModel sig sh t d)) ∧
    (checkCompletion t.config.completion_promise
      (addIteration t (runIterationModel sig sh t d))
      (runIterationModel sig sh t d)).is_complete = true ∧
    (checkCompletion t.config.completion_promise
      (addIteration t (runIterationModel sig sh t d))
      (runIterationModel sig sh t d)).confidence = 1 := by
  have hfound : promiseFound t.config.completion_promise
      (some t.config.completion_promise) d.agent_response = true := by
    rw [← runIterationModel_promise_found sig sh t d]
    exact hp
  have hcres : checkCompletion t.config.completion_promise
      (addIteration t (runIterationModel sig sh t d))
      (runIterationModel sig sh t d) =
      { is_complete := true,
        reason := "Completion promise detected: " ++
          promiseMatchText t.config.completion_promise
            (some t.config.completion_promise) d.agent_response,
        confidence := 1,
        promise_detected := true,
        all_tests_passed := false,
        no_errors := true } := by
    unfold checkCompletion
    simp [hfound]
  have hrun : runTask sig sh t (d :: rest) =
      taskComplete (addIteration t (runIterationModel sig sh t d))
        (checkCompletion t.config.completion_promise
          (addIteration t (runIterationModel sig sh t d))
          (runIterationModel sig sh t d))
        d.agent_response := by
    unfold runTask
    rw [if_neg (Nat.not_le.mpr hmax)]
    simp only [runIterationModel_agent_response]
    rw [hcres]
    simp [stepStop, shouldStop]
  refine ⟨?_, ?_, ?_, ?_⟩
  · rw [hrun]; rfl
  · rw [hrun]; rfl
  · rw [hcres]
  · rw [hcres]

/-- Task for the C3 witness: default configuration, freshly started. -/
def tW3 : RalphTask := taskStart (initTask "promise demo" {})

/-- Iteration data for the C3 witness: the agent response carries the default
completion promise. -/
def dW3 : IterData := { agent_response := "Done. <promise>COMPLETE</promise>" }

/-- C3 witness: the theorem applied to a concrete promising iteration. -/
theorem c3_promise_completes_witness :
    (runTask sig0 sh0 tW3 [dW3]).status = TaskStatus.completed ∧
    (runTask sig0 sh0 tW3 [dW3]).completion_result =
      some (checkCompletion tW3.config.completion_promise
        (addIteration tW3 (runIterationModel sig0 sh0 tW3 dW3))
        (runIterationModel sig0 sh0 tW3 dW3)) ∧
    (checkCompletion tW3.config.completion_promise
      (addIteration tW3 (runIterationModel sig0 sh0 tW3 dW3))
      (runIterationModel sig0 sh0 tW3 dW3)).is_complete = true ∧
    (checkCompletion tW3.config.completion_promise
      (addIteration tW3 (runIterationModel sig0 sh0 tW3 dW3))
      (runIterationModel sig0 sh0 tW3 dW3)).confidence = 1 :=
  c3_promise_completes sig0 sh0 tW3 dW3 [] (by decide) (by decide)

/-! ## C6 — stuck-loop detection -/

/-- C6 (amended): when the last three recorded iterations have identical
500-character response prefixes, the detector has not declared completion,
the iteration budget is not yet exhausted, and the consecutive-error stop has
not tripped, `should_stop` fires the stuck branch and the loop marks the task
failed with the reason "Agent appears stuck (identical responses)", which
contains "stuck". -/
theorem c6_stuck_detected (t1 : RalphTask) (cres : CompletionResult)
    (out : String)
    (hic : cres.is_complete = false)
    (hmax : t1.current_iteration < t1.config.max_iterations)
    (herr : tooManyErrors t1 = false)
    (hsame : lastThreeSame t1 = true) :
    shouldStop t1 cres = (true, "Agent appears stuck (identical responses)") ∧
    stepStop t1 cres out =
      some (taskFail t1 "Agent appears stuck (identical responses)") ∧
    (taskFail t1 "Agent appears stuck (identical responses)").status =
      TaskStatus.failed ∧
    (taskFail t1 "Agent appears stuck (identical responses)").error =
      some "Agent appears stuck (identical responses)" ∧
    strHas "Agent appears stuck (identical responses)" "stuck" = true := by
  have hstop : shouldStop t1 cres =
      (true, "Agent appears stuck (identical responses)") := by
    unfold shouldStop
    rw [if_neg (by simp [hic]), if_neg (Nat.not_le.mpr hmax)]
    simp [herr, hsame]
  refine ⟨hstop, ?_, rfl, rfl, by decide⟩
  unfold stepStop
  rw [hstop]
  simp [hic]

/-- An iteration of the C6 witness task (identical responses). -/
def iterW6 (n : Nat) : RalphIteration :=
  { iteration_number := n, status := .completed,
    agent_response := "same thing" }

/-- The C6 witness task: three identical iterations recorded, budget not yet
exhausted. -/
def t1W6 : RalphTask :=
  { prompt := "stuck demo", config := { max_iterations := 10 },
    status := .running, current_iteration := 3,
    iterations := [iterW6 1, iterW6 2, iterW6 3] }

/-- C6 witness: the amended statement at a concrete stuck task. -/
theorem c6_stuck_detected_witness :
    shouldStop t1W6 {} = (true, "Agent appears stuck (identical responses)") ∧
    stepStop t1W6 {} "same thing" =
      some (taskFail t1W6 "Agent appears stuck (identical responses)") ∧
    (taskFail t1W6 "Agent appears stuck (identical responses)").status =
      TaskStatus.failed ∧
    (taskFail t1W6 "Agent appears stuck (identical responses)").error =
      some "Agent appears stuck (identical responses)" ∧
    strHas "Agent appears stuck (identical responses)" "stuck" = true :=
  c6_stuck_detected t1W6 {} "same thing" rfl (by decide) (by decide) (by decide)

/-- Configuration for the C6 counterexample: budget of exactly three
iterations, no backpressure. -/
def cfgC6 : RalphTaskConfig :=
  { max_iterations := 3, run_tests := false, run_lint := false,
    run_typecheck := false }

/-- The identical, non-completing iteration data of the C6 counterexample. -/
def dC6 : IterData := { agent_response := "still poking at the same fix" }

/-- The C6 counterexample task: three identical iterations under a budget of
three. -/
def taskC6 : RalphTask :=
  runTask sig0 sh0 (taskStart (initTask "stuck loop demo" cfgC6))
    [dC6, dC6, dC6]

/-- C6 counterexample: a task whose last three recorded iterations are
identical and never declared complete, yet whose stop reason does not contain
"stuck" — `should_stop` checks the max-iterations branch before the stuck
branch, so with `max_iterations = 3` the task fails with "Max iterations (3)
reached" instead. -/
theorem c6_preempted_by_max_iterations :
    lastThreeSame taskC6 = true ∧
    taskC6.completion_result = none ∧
    taskC6.status = TaskStatus.failed ∧
    taskC6.error = some "Max iterations (3) reached" ∧
    strHas "Max iterations (3) reached" "stuck" = false :=
  ⟨by decide, rfl, rfl, rfl, rfl⟩

/-! ## C8 — `add_iteration` bookkeeping invariant -/

/-- The invariant claimed after every `add_iteration`: the iteration counter
mirrors the list length, iteration numbers are exactly the 1-based positions,
and the two totals are the sums of the per-iteration list lengths. -/
def taskInv (t : RalphTask) : Prop :=
  t.current_iteration = t.iterations.length ∧
  t.iterations.map (fun i => i.iteration_number) =
    List.range' 1 t.iterations.length ∧
  t.total_tool_calls =
    (t.iterations.map (fun i => i.tool_calls.length)).sum ∧
  t.total_file_changes =
    (t.iterations.map (fun i => i.file_changes.length)).sum

theorem range'_one_concat (n : Nat) :
    List.range' 1 (n + 1) = List.range' 1 n ++ [n + 1] := by
  have h := List.range'_append_1 1 n 1
  simp only [List.range'_one] at h
  rw [Nat.add_comm n 1, ← h, Nat.add_comm 1 n]

theorem taskInv_addScripted (sig : DirSig) (sh : ShellFn) (t : RalphTask)
    (d : IterData) (h : taskInv t) : taskInv (addScripted sig sh t d) := by
  obtain ⟨h1, h2, h3, h4⟩ := h
  refine ⟨?_, ?_, ?_, ?_⟩
  · simp [addScripted, addIteration]
  · show (t.iterations ++ [runIterationModel sig sh t d]).map
        (fun i => i.iteration_number) =
      List.range' 1 (t.iterations ++ [runIterationModel sig sh t d]).length
    rw [List.map_append, List.length_append, h2]
    simp only [List.map_cons, List.map_nil, List.length_cons,
      List.length_nil]
    rw [range'_one_concat]
    have hnum : (runIterationModel sig sh t d).iteration_number =
        t.iterations.length + 1 := by
      rw [show (runIterationModel sig sh t d).iteration_number =
        t.current_iteration + 1 from rfl, h1]
    rw [hnum]
  · show t.total_tool_calls + (runIterationModel sig sh t d).tool_calls.length
      = ((t.iterations ++ [runIterationModel sig sh t d]).map
          (fun i => i.tool_calls.length)).sum
    rw [List.map_append, List.sum_append, h3]
    simp
  · show t.total_file_changes +
        (runIterationModel sig sh t d).file_changes.length
      = ((t.iterations ++ [runIterationModel sig sh t d]).map
          (fun i => i.file_changes.length)).sum
    rw [List.map_append, List.sum_append, h4]
    simp

/-- C8: every task built by the loop's add-iteration step (an iteration
numbered `current_iteration + 1`, then `add_iteration`) from a fresh task
satisfies the bookkeeping invariant after each step. -/
theorem c8_add_iteration_invariant (sig : DirSig) (sh : ShellFn)
    (prompt : String) (cfg : RalphTaskConfig) (ds : List IterData) :
    taskInv (ds.foldl (addScripted sig sh) (taskStart (initTask prompt cfg))) := by
  have haux : ∀ (l : List IterData) (t : RalphTask), taskInv t →
      taskInv (l.foldl (addScripted sig sh) t) := by
    intro l
    induction l with
    | nil => intro t h; exact h
    | cons d rest ih =>
      intro t h
      exact ih _ (taskInv_addScripted sig sh t d h)
  exact haux ds _ ⟨rfl, rfl, rfl, rfl⟩

/-- Iteration data for the C8 witness. -/
def dW8a : IterData :=
  { agent_response := "first pass",
    tool_calls := [{ tool_name := "write_file" }, { tool_name := "read_file" }],
    file_changes := [{ path := "a.txt", action := "create" }] }

/-- Second iteration datum for the C8 witness (a failed turn). -/
def dW8b : IterData := { agent_response := "", error := some "boom" }

/-- C8 witness: the invariant at a concrete two-iteration history. -/
theorem c8_add_iteration_invariant_witness :
    taskInv ([dW8a, dW8b].foldl (addScripted sig0 sh0)
      (taskStart (initTask "bookkeeping demo" {}))) :=
  c8_add_iteration_invariant sig0 sh0 "bookkeeping demo" {} [dW8a, dW8b]

/-! ## C9 — write / read round trip -/

@[simp] theorem fsSet_dirs (fs : FSState) (p : List String) (c : String) :
    (fsSet fs p c).dirs = fs.dirs := rfl

/-- C9: a successful `write_file(p, c)` followed by `read_file(p)` with no
line range returns content `c`.  The hypotheses state that the write
succeeds: the path resolves, no ancestor of the target is a regular file, and
the target is not a directory. -/
theorem c9_write_read (wd : List String) (fs : FSState) (cs : List FileChange)
    (p c : String) (rp : List String)
    (hres : resolvePathChecked wd p = Except.ok rp)
    (hanc : ancestorFileConflict fs rp = false)
    (hdir : rp ∉ (mkdirParents fs rp).dirs) :
    ∃ r cs2,
      toolWriteFile wd fs cs p c =
        Except.ok (r, fsSet (mkdirParents fs rp) rp c, cs2) ∧
      dictGet r "success" = some (RVal.b true) ∧
      toolReadFile wd (fsSet (mkdirParents fs rp) rp c) p none none =
        Except.ok (RVal.dict
          [("path", RVal.s p), ("content", RVal.s c),
           ("lines", RVal.n (countLines c)),
           ("size", RVal.n c.length)]) := by
  have hget : fsGet (fsSet (mkdirParents fs rp) rp c) rp = some c :=
    fsGet_fsSet (mkdirParents fs rp) rp c
  have hread : toolReadFile wd (fsSet (mkdirParents fs rp) rp c) p none none =
      Except.ok (RVal.dict
        [("path", RVal.s p), ("content", RVal.s c),
         ("lines", RVal.n (countLines c)),
         ("size", RVal.n c.length)]) := by
    unfold toolReadFile
    rw [hres]
    simp [fsExists, fsIsFile, hget, hdir]
  cases hex : fsExists (mkdirParents fs rp) rp with
  | false =>
    refine ⟨RVal.dict [("success", RVal.b true), ("path", RVal.s p),
        ("action", RVal.s "create"), ("lines", RVal.n (countLines c))],
      cs ++ [{ path := p, action := "create",
               content_preview := some (strTake c 200),
               lines_added := countLines c, lines_removed := 0 }],
      ?_, rfl, hread⟩
    unfold toolWriteFile
    rw [hres]
    simp [hanc, hex, hdir]
  | true =>
    refine ⟨RVal.dict [("success", RVal.b true), ("path", RVal.s p),
        ("action", RVal.s "modify"), ("lines", RVal.n (countLines c))],
      cs ++ [{ path := p, action := "modify",
               content_preview := some (strTake c 200),
               lines_added := countLines c -
                 countLines ((fsGet (mkdirParents fs rp) rp).getD ""),
               lines_removed :=
                 countLines ((fsGet (mkdirParents fs rp) rp).getD "") -
                 countLines c }],
      ?_, rfl, hread⟩
    unfold toolWriteFile
    rw [hres]
    simp [hanc, hex, hdir]

/-- C9 witness: round trip of `write_file("notes.txt", "hi")` then
`read_file("notes.txt")` in an empty working directory `/w`. -/
theorem c9_write_read_witness :
    ∃ r cs2,
      toolWriteFile ["w"] {} [] "notes.txt" "hi" =
        Except.ok
          (r, fsSet (mkdirParents {} ["w", "notes.txt"]) ["w", "notes.txt"] "hi",
           cs2) ∧
      dictGet r "success" = some (RVal.b true) ∧
      toolReadFile ["w"]
          (fsSet (mkdirParents {} ["w", "notes.txt"]) ["w", "notes.txt"] "hi")
          "notes.txt" none none =
        Except.ok (RVal.dict
          [("path", RVal.s "notes.txt"), ("content", RVal.s "hi"),
           ("lines", RVal.n (countLines "hi")),
           ("size", RVal.n ("hi" : String).length)]) :=
  c9_write_read ["w"] {} [] "notes.txt" "hi" ["w", "notes.txt"] rfl rfl
    (by decide)

/-! ## C10 — vacuous backpressure and heuristic-only completion -/

/-- Configuration with every backpressure check disabled. -/
def cfgC10 : RalphTaskConfig :=
  { max_iterations := 5, run_tests := false, run_lint := false,
    run_typecheck := false, run_build := false }

/-- The C10 agent response: four heuristic phrases (2 × 0.15 + 2 × 0.20) and
no completion promise. -/
def dC10 : IterData :=
  { agent_response := "The task is complete. It completed successfully. No changes needed. All requirements met." }

/-- The freshly started C10 task. -/
def t0C10 : RalphTask := taskStart (initTask "heuristic demo" cfgC10)

/-- The single iteration the C10 scenario records. -/
def itC10 : RalphIteration := runIterationModel sig0 sh0 t0C10 dC10

/-- The completion result the detector computes for that iteration. -/
def cresC10 : CompletionResult :=
  checkCompletion cfgC10.completion_promise (addIteration t0C10 itC10) itC10

/-- The C10 task after the loop processes the iteration. -/
def taskC10 : RalphTask := runTask sig0 sh0 t0C10 [dC10]

/-- C10: with no backpressure results the detector's backpressure summary is
vacuously positive (`all_passed` and `no_errors` both true on an empty
list), and a task with every check disabled completes on heuristic phrase
matches alone: the recorded iteration has no backpressure results, no promise
is detected, yet `check_completion` returns `is_complete = true` with
confidence 0.7 — the heuristic cap — and the loop marks the task completed
with that result stored. -/
theorem c10_vacuous_backpressure :
    (bpCheck []).all_passed = true ∧
    (bpCheck []).no_errors = true ∧
    itC10.backpressure_results = [] ∧
    cresC10.promise_detected = false ∧
    cresC10.is_complete = true ∧
    cresC10.confidence = 7 / 10 ∧
    cresC10.confidence ≤ 7 / 10 ∧
    taskC10.status = TaskStatus.completed ∧
    taskC10.completion_result = some cresC10 := by
  have hc : cresC10.confidence = ((70 : ℕ) : ℚ) / 100 := rfl
  refine ⟨rfl, rfl, rfl, rfl, rfl, ?_, ?_, rfl, rfl⟩
  · rw [hc]; norm_num
  · rw [hc]; norm_num
